import Mathlib

/-!
Shallow embedding of the weather-resolution and caching pipeline of the
`weather-api` repository (FastAPI + Redis + MongoDB + OpenMeteo), together
with theorems settling the frozen claims about its specification.

Numeric scalars are modelled as rationals; Python's `round(x, 2)` is
modelled by `round2` below.  Stateful components (the Redis cache, the
MongoDB collection) are modelled as association lists, and each stateful
source method becomes a pure function from the old state to the result and
the new state.  Exceptions raised by the Python code are modelled with
`Except`.
-/

namespace WeatherApi

/-- The three unit systems accepted by the API (`Literal["standard",
"metric", "imperial"]` in `app/models.py`).  `standard` is the canonical
system (Kelvin temperatures, m/s wind). -/
inductive UnitSystem
  | standard
  | metric
  | imperial
deriving DecidableEq, Repr

/-- Model of Python's `round(x, 2)`: round to 2 decimal places.  Mathlib's
`round` rounds half up (`round x = ⌊x + 1/2⌋`) while Python rounds half to
even; every bound proved below only uses `|round2 x - x| ≤ 1/200` and
exactness on 2-decimal inputs, which hold for both tie-breaking rules, and
every concrete evaluation below is at a non-tie point, where the two rules
agree. -/
def round2 (x : ℚ) : ℚ := (round (100 * x) : ℤ) / 100

/-- Rationals with at most two decimal places: the exact image of Python's
`round(-, 2)` and hence of every converter in the pipeline. -/
def IsGrid (x : ℚ) : Prop := ∃ k : ℤ, x = (k : ℚ) / 100

/-- Source `WeatherCache._convert_temperature` (`weather_cache.py` lines
75-90): convert via Kelvin, rounding the final result to 2 decimals. -/
def convert_temperature (temp : ℚ) (from_units to_units : UnitSystem) : ℚ :=
  let kelvin : ℚ :=
    match from_units with
    | .metric => temp + 273.15
    | .imperial => (temp - 32) * 5 / 9 + 273.15
    | .standard => temp
  match to_units with
  | .metric => round2 (kelvin - 273.15)
  | .imperial => round2 ((kelvin - 273.15) * 9 / 5 + 32)
  | .standard => round2 kelvin

/-- Source `WeatherCache._convert_wind_speed` (`weather_cache.py` lines
92-103): convert via m/s; only `imperial` differs (factor 2.237). -/
def convert_wind_speed (speed : ℚ) (from_units to_units : UnitSystem) : ℚ :=
  let ms : ℚ := if from_units = .imperial then speed / 2.237 else speed
  if to_units = .imperial then round2 (ms * 2.237) else round2 ms

/-- Source `OpenMeteoClient._convert_temperature` (`openmeteo_client.py`
lines 31-37): the provider returns Celsius; convert to the requested
units. -/
def openMeteoConvertTemperature (temp : ℚ) (to_units : UnitSystem) : ℚ :=
  match to_units with
  | .standard => round2 (temp + 273.15)
  | .imperial => round2 (temp * 9 / 5 + 32)
  | .metric => round2 temp

/-- Source `OpenMeteoClient._convert_wind_speed` (`openmeteo_client.py`
lines 39-43): the provider returns km/h; `imperial` multiplies by
0.621371 (km/h to mph), every other target returns the value unchanged
(up to rounding). -/
def openMeteoConvertWindSpeed (speed : ℚ) (to_units : UnitSystem) : ℚ :=
  if to_units = .imperial then round2 (speed * 0.621371) else round2 speed

/-! Data model (`app/models.py`).  Scalar fields are rationals; the integer
fields keep their pydantic `int` type as `ℤ`. -/

/-- Source `Temperature` model. -/
structure Temperature where
  min : ℚ
  max : ℚ
  afternoon : ℚ
  night : ℚ
  evening : ℚ
  morning : ℚ
deriving DecidableEq, Repr

/-- Source `WindMax` model. -/
structure WindMax where
  speed : ℚ
  direction : ℤ
deriving DecidableEq, Repr

/-- Source `Wind` model. -/
structure Wind where
  max : WindMax
deriving DecidableEq, Repr

/-- Source `CloudCover` model. -/
structure CloudCover where
  afternoon : ℤ
deriving DecidableEq, Repr

/-- Source `Humidity` model. -/
structure Humidity where
  afternoon : ℤ
deriving DecidableEq, Repr

/-- Source `Precipitation` model. -/
structure Precipitation where
  total : ℚ
deriving DecidableEq, Repr

/-- Source `Pressure` model. -/
structure Pressure where
  afternoon : ℚ
deriving DecidableEq, Repr

/-- Source `WeatherMeta` model: the provenance metadata attached at
hand-off time and stripped before persisting. -/
structure WeatherMeta where
  cached : Bool
  cache_time : Option String
  provider : String
  data_type : String
deriving DecidableEq, Repr

/-- Source `WeatherResponse` model (a `BaseWeatherResponse` plus optional
`meta`). -/
structure WeatherResponse where
  lat : ℚ
  lon : ℚ
  date : String
  units : UnitSystem
  cloud_cover : CloudCover
  humidity : Humidity
  precipitation : Precipitation
  temperature : Temperature
  pressure : Pressure
  wind : Wind
  meta : Option WeatherMeta
deriving DecidableEq, Repr

/-- Source `TemperatureStats` model. -/
structure TemperatureStats where
  min : ℚ
  max : ℚ
  average : ℚ
deriving DecidableEq, Repr

/-- Source `PrecipitationStats` model. -/
structure PrecipitationStats where
  total : ℚ
  days_with_precipitation : ℤ
deriving DecidableEq, Repr

/-- Source `WindStats` model. -/
structure WindStats where
  average_speed : ℚ
  max_speed : ℚ
deriving DecidableEq, Repr

/-- Source `WeatherStats` model.  Note that, unlike `WeatherResponse`, it
has no `units` field. -/
structure WeatherStats where
  temperature : TemperatureStats
  precipitation : PrecipitationStats
  wind : WindStats
  meta : Option WeatherMeta
deriving DecidableEq, Repr

/-- The `Union[WeatherResponse, WeatherStats]` values the cache layer
handles (`isinstance` dispatch in the source). -/
inductive WeatherData
  | reading (w : WeatherResponse)
  | stats (s : WeatherStats)
deriving DecidableEq, Repr

/-- Source `WeatherCache._convert_units` (`weather_cache.py` lines
105-150): convert every unit-dependent scalar; a same-units conversion is
an unconditional no-op.  The `WeatherResponse` branch also rewrites the
`units` tag; the `WeatherStats` branch has no tag to rewrite. -/
def convert_units (data : WeatherData) (from_units to_units : UnitSystem) : WeatherData :=
  if from_units = to_units then data
  else
    match data with
    | .reading w =>
        .reading { w with
          temperature :=
            { min := convert_temperature w.temperature.min from_units to_units
              max := convert_temperature w.temperature.max from_units to_units
              afternoon := convert_temperature w.temperature.afternoon from_units to_units
              night := convert_temperature w.temperature.night from_units to_units
              evening := convert_temperature w.temperature.evening from_units to_units
              morning := convert_temperature w.temperature.morning from_units to_units }
          wind :=
            { max :=
                { speed := convert_wind_speed w.wind.max.speed from_units to_units
                  direction := w.wind.max.direction } }
          units := to_units }
    | .stats s =>
        .stats { s with
          temperature :=
            { min := convert_temperature s.temperature.min from_units to_units
              max := convert_temperature s.temperature.max from_units to_units
              average := convert_temperature s.temperature.average from_units to_units }
          wind :=
            { average_speed := convert_wind_speed s.wind.average_speed from_units to_units
              max_speed := convert_wind_speed s.wind.max_speed from_units to_units } }

/-! The Redis cache tier (`app/services/weather_cache.py`).  The store is
an association list from rendered key strings to raw entries; entry expiry
(TTL) is not part of any claim and is not modelled. -/

/-- The decoded shape of a cache payload: the JSON blob either carries the
fields of a `WeatherResponse` or of a `WeatherStats` (the `units` key is
present exactly in the former, so `json_data.get("units", "standard")`
yields the reading's tag or the `"standard"` default). -/
inductive CachePayload
  | reading (w : WeatherResponse)
  | stats (s : WeatherStats)
deriving DecidableEq, Repr

/-- A raw Redis value: either valid JSON carrying one of the two payload
shapes, or a byte string on which `json.loads` raises
`JSONDecodeError`. -/
inductive RawEntry
  | json (p : CachePayload)
  | invalidJson
deriving DecidableEq, Repr

/-- The modelled Redis keyspace. -/
abbrev RedisState : Type := List (String × RawEntry)

/-- Source `WeatherCache._get_key`: the rendered key
`f"weather:{city}:{date}:{data_type}"`. -/
def weather_key (city date data_type : String) : String :=
  "weather:" ++ city ++ ":" ++ date ++ ":" ++ data_type

/-- Redis `DELETE key` on the modelled keyspace. -/
def redisDelete (st : RedisState) (key : String) : RedisState :=
  List.filter (fun kv => kv.1 ≠ key) st

/-- Redis `GET key` on the modelled keyspace. -/
def redisRead (st : RedisState) (key : String) : Option RawEntry :=
  List.lookup key st

/-- Python's `units` attribute access on a `Union[WeatherResponse,
WeatherStats]` value: a `WeatherStats` has no such field, so pydantic
raises `AttributeError` (modelled as `none`). -/
def unitsAttr : WeatherData → Option UnitSystem
  | .reading w => some w.units
  | .stats _ => none

/-- The `cached_units` read in `WeatherCache.get` (line 167):
`json_data.get("units", "standard")`. -/
def cachedUnits : CachePayload → UnitSystem
  | .reading w => w.units
  | .stats _ => .standard

/-- The deserialization step of `WeatherCache.get`:
`model_validate` of the payload against the class selected by
`data_type == "stats"`.  `none` models the `ValueError` raised by pydantic
on a shape mismatch (and `RawEntry.invalidJson` never reaches it:
`json.loads` raises first). -/
def validatePayload (p : CachePayload) (isStats : Bool) : Option WeatherData :=
  match p, isStats with
  | .stats s, true => some (.stats s)
  | .reading w, false => some (.reading w)
  | _, _ => none

namespace WeatherCache

/-- Source `WeatherCache.get` (`weather_cache.py` lines 152-193): look the
key up, decode, stamp provenance metadata, convert from the stored units
to the requested units.  Both decode failures (`json.JSONDecodeError` from
`json.loads` and `ValueError` from `model_validate`) are caught: the entry
is deleted and the call returns `None`.  `now` stands for
`datetime.now().isoformat()`. -/
def get (st : RedisState) (city date data_type : String) (units : UnitSystem)
    (now : String) : Option WeatherData × RedisState :=
  let key := weather_key city date data_type
  match redisRead st key with
  | none => (none, st)
  | some .invalidJson => (none, redisDelete st key)
  | some (.json p) =>
      let cached_units := cachedUnits p
      let meta : WeatherMeta :=
        { cached := true, cache_time := some now, provider := "OpenMeteo",
          data_type := data_type }
      match validatePayload p (data_type == "stats") with
      | none => (none, redisDelete st key)
      | some (.stats s) =>
          (some (convert_units (.stats { s with meta := some meta }) cached_units units), st)
      | some (.reading w) =>
          (some (convert_units (.reading { w with meta := some meta }) cached_units units), st)

/-- The `model_dump` plus `data_dict.pop("meta", None)` step of
`WeatherCache.set`: the persisted JSON blob is the value's fields with the
provenance metadata removed. -/
def dumpWithoutMeta : WeatherData → CachePayload
  | .reading w => .reading { w with meta := none }
  | .stats s => .stats { s with meta := none }

/-- Source `WeatherCache.set` (`weather_cache.py` lines 195-222): deep-copy
the value, convert the copy to standard units when its `units` tag is not
already `"standard"`, strip the metadata, serialize, write.  For a
`WeatherStats` value the attribute access `cache_data.units` on line 211
raises `AttributeError` (the model has no `units` field), modelled as
`Except.error`. -/
def set (st : RedisState) (city date data_type : String) (data : WeatherData) :
    Except String RedisState :=
  let key := weather_key city date data_type
  match unitsAttr data with
  | none => .error "AttributeError: units"
  | some u =>
      let cache_data := if u ≠ .standard then convert_units data u .standard else data
      let payload := dumpWithoutMeta cache_data
      .ok ((key, RawEntry.json payload) :: redisDelete st key)

/-- Result model `CacheClearResponse` (`app/models.py`), restricted to the
fields the claims are about; `timestamp` and the `memory_freed` string are
not modelled. -/
structure ClearResult where
  status : String
  message : String
  keys_removed : ℕ
deriving DecidableEq, Repr

/-- Source `WeatherCache.clear_city_cache` (`weather_cache.py` lines
224-262): scan for `f"weather:{city}:*"`, return a zero-count success when
nothing matches, otherwise delete every matching key and report the
count. -/
def clear_city_cache (st : RedisState) (city : String) : ClearResult × RedisState :=
  let pat := "weather:" ++ city ++ ":"
  let keys := List.filter (fun k => String.startsWith k pat) (List.map Prod.fst st)
  if keys.isEmpty then
    ({ status := "success",
       message := "No cache entries found for city: " ++ city,
       keys_removed := 0 }, st)
  else
    ({ status := "success",
       message := "Cache cleared for city: " ++ city,
       keys_removed := keys.length },
     List.filter (fun kv => ¬ String.startsWith kv.1 pat) st)

end WeatherCache

/-! The city gazetteer (`app/core/cities_data.py`) and the MongoDB
historical tier (`app/services/mongo_storage.py`). -/

/-- Source `CITIES` table, as `(key, lat, lon)`; the `name`, `country`,
`state` and `tz` fields are not read by any modelled code path. -/
def CITIES : List (String × ℚ × ℚ) := [
  ("london,gb", 51.5074, -0.1278),
  ("paris,fr", 48.8566, 2.3522),
  ("new york,us", 40.7128, -74.0060),
  ("tokyo,jp", 35.6762, 139.6503),
  ("sydney,au", -33.8688, 151.2093),
  ("dubai,ae", 25.2048, 55.2708),
  ("singapore,sg", 1.3521, 103.8198),
  ("mumbai,in", 19.0760, 72.8777),
  ("istanbul,tr", 41.0082, 28.9784),
  ("moscow,ru", 55.7558, 37.6173),
  ("berlin,de", 52.5200, 13.4050),
  ("rome,it", 41.9028, 12.4964),
  ("beijing,cn", 39.9042, 116.4074),
  ("shanghai,cn", 31.2304, 121.4737),
  ("sao paulo,br", -23.5505, -46.6333),
  ("mexico city,mx", 19.4326, -99.1332),
  ("los angeles,us", 34.0522, -118.2437),
  ("chicago,us", 41.8781, -87.6298),
  ("toronto,ca", 43.6532, -79.3832),
  ("cairo,eg", 30.0444, 31.2357),
  ("johannesburg,za", -26.2041, 28.0473),
  ("seoul,kr", 37.5665, 126.9780),
  ("bangkok,th", 13.7563, 100.5018),
  ("amsterdam,nl", 52.3676, 4.9041),
  ("vienna,at", 48.2082, 16.3738),
  ("madrid,es", 40.4168, -3.7038),
  ("barcelona,es", 41.3851, 2.1734),
  ("milan,it", 45.4642, 9.1900),
  ("munich,de", 48.1351, 11.5820),
  ("hamburg,de", 53.5511, 9.9937),
  ("frankfurt,de", 50.1109, 8.6821),
  ("warsaw,pl", 52.2297, 21.0122),
  ("krakow,pl", 50.0647, 19.9450),
  ("prague,cz", 50.0755, 14.4378),
  ("budapest,hu", 47.4979, 19.0402),
  ("stockholm,se", 59.3293, 18.0686),
  ("oslo,no", 59.9139, 10.7522),
  ("copenhagen,dk", 55.6761, 12.5683),
  ("dublin,ie", 53.3498, -6.2603),
  ("brussels,be", 50.8503, 4.3517),
  ("lisbon,pt", 38.7223, -9.1393),
  ("athens,gr", 37.9838, 23.7275),
  ("bucharest,ro", 44.4268, 26.1025),
  ("helsinki,fi", 60.1699, 24.9384),
  ("zurich,ch", 47.3769, 8.5417),
  ("geneva,ch", 46.2044, 6.1432),
  ("wroclaw,pl", 51.1079, 17.0385),
  ("poznan,pl", 52.4064, 16.9252),
  ("gdansk,pl", 54.3520, 18.6466),
  ("szczecin,pl", 53.4285, 14.5528),
  ("lodz,pl", 51.7592, 19.4559),
  ("lublin,pl", 51.2465, 22.5684),
  ("katowice,pl", 50.2649, 19.0238),
  ("bialystok,pl", 53.1325, 23.1688),
  ("gdynia,pl", 54.5189, 18.5305),
  ("czestochowa,pl", 50.8118, 19.1203)]

/-- Source `HistoricalWeatherRecord` model (`app/models.py`): the
flattened document stored per `(city_key, date)`.  The `last_updated`
timestamp is not modelled; `pressure` is kept as a rational because
`store_weather` passes the float `weather.pressure.afternoon` into it. -/
structure HistoricalWeatherRecord where
  city_key : String
  date : String
  temperature_min : ℚ
  temperature_max : ℚ
  temperature_afternoon : ℚ
  temperature_night : ℚ
  temperature_evening : ℚ
  temperature_morning : ℚ
  precipitation_total : ℚ
  wind_speed : ℚ
  wind_direction : ℤ
  cloud_cover : ℤ
  humidity : ℤ
  pressure : ℚ
deriving DecidableEq, Repr

/-- The modelled MongoDB collection, keyed by the unique
`(city_key, date)` index. -/
abbrev MongoState : Type := List ((String × String) × HistoricalWeatherRecord)

namespace MongoWeatherStorage

/-- Source `self.tracked_cities` (`mongo_storage.py` line 17): the fixed
allow-list of cities eligible for historical persistence. -/
def tracked_cities : List String := ["london,gb", "paris,fr", "lublin,pl"]

/-- Source `MongoWeatherStorage.is_tracked_city`. -/
def is_tracked_city (city_key : String) : Bool :=
  city_key ∈ tracked_cities

/-- Source `MongoWeatherStorage.get_weather` (`mongo_storage.py` lines
24-60): return `None` for a non-tracked city before any collection
access; otherwise find the record by exact `(city_key, date)` key and
rebuild a `WeatherResponse` whose `units` tag is hard-coded to
`"standard"`.  The `units` parameter of the source method is accepted and
ignored, exactly as in the source. -/
def get_weather (db : MongoState) (city_key date : String) (units : UnitSystem) :
    Option WeatherResponse :=
  if ¬ is_tracked_city city_key then none
  else
    match List.lookup (city_key, date) db with
    | none => none
    | some record =>
        match List.lookup city_key CITIES with
        | none => none
        | some (lat, lon) =>
            some
              { lat := lat, lon := lon, date := record.date, units := .standard,
                cloud_cover := { afternoon := record.cloud_cover },
                humidity := { afternoon := record.humidity },
                precipitation := { total := record.precipitation_total },
                temperature :=
                  { min := record.temperature_min, max := record.temperature_max,
                    afternoon := record.temperature_afternoon,
                    night := record.temperature_night,
                    evening := record.temperature_evening,
                    morning := record.temperature_morning },
                pressure := { afternoon := record.pressure },
                wind :=
                  { max := { speed := record.wind_speed,
                             direction := record.wind_direction } },
                meta := none }

/-- Source `MongoWeatherStorage.store_weather` (`mongo_storage.py` lines
62-89): drop the write for a non-tracked city; otherwise flatten the
reading's scalar fields into a record — without any unit conversion — and
upsert it under `(city_key, weather.date)`. -/
def store_weather (db : MongoState) (weather : WeatherResponse) (city_key : String) :
    MongoState :=
  if ¬ is_tracked_city city_key then db
  else
    let record : HistoricalWeatherRecord :=
      { city_key := city_key, date := weather.date,
        temperature_min := weather.temperature.min,
        temperature_max := weather.temperature.max,
        temperature_afternoon := weather.temperature.afternoon,
        temperature_night := weather.temperature.night,
        temperature_evening := weather.temperature.evening,
        temperature_morning := weather.temperature.morning,
        precipitation_total := weather.precipitation.total,
        wind_speed := weather.wind.max.speed,
        wind_direction := weather.wind.max.direction,
        cloud_cover := weather.cloud_cover.afternoon,
        humidity := weather.humidity.afternoon,
        pressure := weather.pressure.afternoon }
    ((city_key, weather.date), record) ::
      List.filter (fun kv => kv.1 ≠ (city_key, weather.date)) db

end MongoWeatherStorage

/-! The orchestrating endpoints (`app/api/v1/endpoints/weather.py`).  Each
endpoint is modelled from the source line by line; the upstream provider
(`OpenMeteoClient`) is a function parameter returning either a reading or
the `HTTPException` the client raises. -/

/-- A raised Python exception, as observed by the caller of an endpoint:
either an `HTTPException(status_code, detail.code)` or an uncaught
`AttributeError`. -/
inductive PyErr
  | http (status : ℕ) (code : String)
  | attributeError (attr : String)
deriving DecidableEq, Repr

/-- The provenance metadata attached on the MongoDB-hit path of
`get_historical_weather` (`weather.py` lines 122-127). -/
def mongoTierMeta : WeatherMeta :=
  { cached := false, cache_time := none,
    provider := "OpenMeteo [MongoDB Storage]", data_type := "historical" }

/-- The provenance metadata attached on the upstream path of
`get_historical_weather` (`weather.py` lines 145-150). -/
def upstreamHistoricalMeta : WeatherMeta :=
  { cached := false, cache_time := none, provider := "OpenMeteo",
    data_type := "historical" }

/-- The upstream fall-through of `get_historical_weather` (`weather.py`
lines 136-159): fetch from OpenMeteo, attach provenance, write through to
the cache, and to MongoDB when the city is tracked. -/
def historical_upstream_path (city_key date : String) (units : UnitSystem)
    (lat lon : ℚ) (cache : RedisState) (db : MongoState)
    (upstream : ℚ → ℚ → String → UnitSystem → Except PyErr WeatherResponse) :
    Except PyErr (WeatherData × RedisState × MongoState) :=
  match upstream lat lon date units with
  | .error e => .error e
  | .ok weather_data =>
      let weather_data := { weather_data with meta := some upstreamHistoricalMeta }
      match WeatherCache.set cache city_key date ("historical") (.reading weather_data) with
      | .error a => .error (.attributeError a)
      | .ok cache2 =>
          let db2 :=
            if MongoWeatherStorage.is_tracked_city city_key then
              MongoWeatherStorage.store_weather db weather_data city_key
            else db
          .ok (.reading weather_data, cache2, db2)

/-- Source `get_historical_weather` (`weather.py` lines 112-159), from the
cache lookup on (the city has been resolved and the date validated
upstream of this fragment): try the cache; on a miss try MongoDB for
tracked cities; on a MongoDB hit attach store-tier provenance and then
execute `await weather_cache.convert_units(mongo_data, units)` — a method
`WeatherCache` does not define (it only has the three-argument private
`_convert_units`), so for `units != "standard"` the attribute lookup
raises `AttributeError`; otherwise fall through to the upstream
provider. -/
def get_historical_weather (city_key date : String) (units : UnitSystem)
    (lat lon : ℚ) (cache : RedisState) (db : MongoState)
    (upstream : ℚ → ℚ → String → UnitSystem → Except PyErr WeatherResponse)
    (now : String) :
    Except PyErr (WeatherData × RedisState × MongoState) :=
  match WeatherCache.get cache city_key date ("historical") units now with
  | (some cached_data, cache1) => .ok (cached_data, cache1, db)
  | (none, cache1) =>
      if MongoWeatherStorage.is_tracked_city city_key then
        match MongoWeatherStorage.get_weather db city_key date units with
        | some mongo_data =>
            let mongo_data := { mongo_data with meta := some mongoTierMeta }
            if units ≠ .standard then
              .error (.attributeError "convert_units")
            else
              match WeatherCache.set cache1 city_key date ("historical") (.reading mongo_data) with
              | .error a => .error (.attributeError a)
              | .ok cache2 => .ok (.reading mongo_data, cache2, db)
        | none =>
            historical_upstream_path city_key date units lat lon cache1 db upstream
      else historical_upstream_path city_key date units lat lon cache1 db upstream

/-- Rendering of a day number as the `"%Y-%m-%d"` date string; days are
counted as integers, and the rendering is modelled as the (injective)
decimal print of the day number. -/
def dateStr (d : ℤ) : String := toString d

/-- Source forecast date-window check (`weather.py` lines 176-189).  The
request instant is `today + tod` in days (`0 ≤ tod < 1` is the time of
day); `datetime.strptime(date, "%Y-%m-%d")` is midnight of day `d`;
`min_date = datetime.now() + timedelta(days=1)` and
`max_date = datetime.now() + timedelta(days=7)` both carry the
time of day. -/
def forecast_date_valid (today : ℤ) (tod : ℚ) (d : ℤ) : Bool :=
  decide ((today : ℚ) + tod + 1 ≤ (d : ℚ) ∧ (d : ℚ) ≤ (today : ℚ) + tod + 7)

/-- The provenance metadata attached on the upstream path of
`get_forecast` (`weather.py` lines 214-219). -/
def forecastMeta : WeatherMeta :=
  { cached := false, cache_time := none, provider := "OpenMeteo",
    data_type := "forecast" }

/-- Source `get_forecast` (`weather.py` lines 162-224), after city
resolution: validate the date window first — an out-of-window date raises
`HTTPException(400, "INVALID_DATE")` before the cache or the upstream
provider is touched — then try the cache, then the upstream provider with
write-through.  The final `Bool` records whether the upstream provider was
called. -/
def get_forecast (today : ℤ) (tod : ℚ) (d : ℤ) (city_key : String)
    (units : UnitSystem) (lat lon : ℚ) (cache : RedisState)
    (upstream : ℚ → ℚ → String → UnitSystem → Except PyErr WeatherResponse)
    (now : String) :
    Except PyErr WeatherData × RedisState × Bool :=
  if ¬ forecast_date_valid today tod d then
    (.error (.http 400 "INVALID_DATE"), cache, false)
  else
    match WeatherCache.get cache city_key (dateStr d) ("forecast") units now with
    | (some cached_data, cache1) => (.ok cached_data, cache1, false)
    | (none, cache1) =>
        match upstream lat lon (dateStr d) units with
        | .error e => (.error e, cache1, true)
        | .ok weather_data =>
            let weather_data := { weather_data with meta := some forecastMeta }
            match WeatherCache.set cache1 city_key (dateStr d) ("forecast") (.reading weather_data) with
            | .error a => (.error (.attributeError a), cache1, true)
            | .ok cache2 => (.ok (.reading weather_data), cache2, true)

/-! The backfill service (`app/services/population_service.py`). -/

/-- One entry of the `processed_dates` list built by
`populate_historical_data`: `{"date": ..., "status": "skipped",
"reason": "data_exists"}` or `{"date": ..., "status": "success"}`. -/
structure ProcessedDate where
  date : String
  status : String
  reason : Option String
deriving DecidableEq, Repr

/-- One entry of the `failed_dates` list: `{"date": ..., "error": str(e)}`. -/
structure FailedDate where
  date : String
  error : String
deriving DecidableEq, Repr

namespace PopulationService

/-- The per-date loop of `populate_historical_data`
(`population_service.py` lines 60-97).  For each date in order: if MongoDB
already has the `(city, date)` record, append a skipped outcome without
calling upstream; otherwise call `OpenMeteoClient.get_historical_weather`
with `units="standard"` and store the result; any exception from that call
appends a failed outcome and the loop continues with the next date.  The
last component accumulates the dates for which the upstream provider was
invoked. -/
def populate_loop (city_key : String) (lat lon : ℚ)
    (upstream : ℚ → ℚ → String → UnitSystem → Except String WeatherResponse) :
    List String → MongoState →
      List ProcessedDate × List FailedDate × MongoState × List String
  | [], db => ([], [], db, [])
  | date_str :: rest, db =>
      if (MongoWeatherStorage.get_weather db city_key date_str .standard).isSome then
        let r := populate_loop city_key lat lon upstream rest db
        ({ date := date_str, status := "skipped", reason := some "data_exists" } :: r.1,
         r.2.1, r.2.2.1, r.2.2.2)
      else
        match upstream lat lon date_str .standard with
        | .ok weather_data =>
            let db1 := MongoWeatherStorage.store_weather db weather_data city_key
            let r := populate_loop city_key lat lon upstream rest db1
            ({ date := date_str, status := "success", reason := none } :: r.1,
             r.2.1, r.2.2.1, date_str :: r.2.2.2)
        | .error e =>
            let r := populate_loop city_key lat lon upstream rest db
            (r.1, { date := date_str, error := e } :: r.2.1, r.2.2.1,
             date_str :: r.2.2.2)

/-- The date range `[today - days_back, today]` iterated by
`populate_historical_data` (`population_service.py` lines 50-61 and 97). -/
def backfill_dates (today : ℤ) (days_back : ℕ) : List String :=
  List.map (fun i => dateStr (today - days_back + i)) (List.range (days_back + 1))

/-- The run manifest returned by `populate_historical_data`
(`population_service.py` lines 99-108). -/
structure PopulationManifest where
  city : String
  start_date : String
  end_date : String
  days_requested : ℕ
  days_processed : ℕ
  days_failed : ℕ
  processed_dates : List ProcessedDate
  failed_dates : List FailedDate
deriving DecidableEq, Repr

/-- Source `PopulationService.populate_historical_data`
(`population_service.py` lines 15-108): reject unknown cities (404) and
non-tracked cities (400) before the loop; then run the per-date loop over
`[today - days_back, today]` and return the manifest.  The result also
carries the final MongoDB state and the list of dates for which upstream
was called. -/
def populate_historical_data (city_key : String) (days_back : ℕ) (today : ℤ)
    (db : MongoState)
    (upstream : ℚ → ℚ → String → UnitSystem → Except String WeatherResponse) :
    Except PyErr (PopulationManifest × MongoState × List String) :=
  match List.lookup city_key CITIES with
  | none => .error (.http 404 "CITY_NOT_FOUND")
  | some (lat, lon) =>
      if ¬ MongoWeatherStorage.is_tracked_city city_key then
        .error (.http 400 "CITY_NOT_TRACKED")
      else
        let dates := backfill_dates today days_back
        let r := populate_loop city_key lat lon upstream dates db
        .ok
          ({ city := city_key,
             start_date := dateStr (today - days_back),
             end_date := dateStr today,
             days_requested := days_back,
             days_processed := r.1.length,
             days_failed := r.2.1.length,
             processed_dates := r.1,
             failed_dates := r.2.1 }, r.2.2.1, r.2.2.2)

end PopulationService

/-! A small object-heap model of `WeatherCache.set`, used to state the
frame property of its `data.model_copy(deep=True)` call: Python objects
live at references, `model_copy(deep=True)` allocates a fresh object with
the same value, and the in-place mutations done by `_convert_units` hit
only the object they are applied to. -/

namespace WeatherCache

/-- Source `WeatherCache.set` (`weather_cache.py` lines 195-222) run on an
object heap: `data` is the reference `ref` into `heap`.  Line 208
allocates the deep copy at a fresh reference; the conversion of line 212
mutates the copy in place (`heap.set` at the copy's reference); the
caller's object at `ref` is never written.  Returns the heap after the
call together with the outcome. -/
def set_on_heap (heap : List WeatherData) (ref : ℕ) (st : RedisState)
    (city date data_type : String) :
    List WeatherData × Except String RedisState :=
  match heap[ref]? with
  | none => (heap, .error "invalid reference")
  | some data =>
      let copyRef := heap.length
      let heap1 := heap ++ [data]
      match unitsAttr data with
      | none => (heap1, .error "AttributeError: units")
      | some u =>
          let heap2 :=
            if u ≠ .standard then heap1.set copyRef (convert_units data u .standard)
            else heap1
          let payload := dumpWithoutMeta (heap2.getD copyRef data)
          let key := weather_key city date data_type
          (heap2, .ok ((key, RawEntry.json payload) :: redisDelete st key))

end WeatherCache

/-! Concrete sample data used by the evaluation theorems. -/

/-- A canonical-unit historical record for London, as stored by a backfill
run. -/
def sampleRecord : HistoricalWeatherRecord :=
  { city_key := "london,gb", date := "2024-06-01",
    temperature_min := 285.55, temperature_max := 293.15,
    temperature_afternoon := 289.35, temperature_night := 285.55,
    temperature_evening := 289.35, temperature_morning := 287.45,
    precipitation_total := 1.2, wind_speed := 5.5, wind_direction := 180,
    cloud_cover := 50, humidity := 70, pressure := 1013 }

/-- A MongoDB state holding exactly `sampleRecord`. -/
def sampleDb : MongoState := [(("london,gb", "2024-06-01"), sampleRecord)]

/-- A reading in metric units, as the upstream client returns for a
`units="metric"` historical request. -/
def metricReading : WeatherResponse :=
  { lat := 51.5074, lon := -0.1278, date := "2024-06-02", units := .metric,
    cloud_cover := { afternoon := 50 }, humidity := { afternoon := 70 },
    precipitation := { total := 1.2 },
    temperature :=
      { min := 15.5, max := 23.5, afternoon := 19.5, night := 15.5,
        evening := 19.5, morning := 19.5 },
    pressure := { afternoon := 1013 },
    wind := { max := { speed := 19.8, direction := 180 } },
    meta := none }

/-- A reading in standard units, used as a generic concrete value. -/
def standardReading : WeatherResponse :=
  { lat := 51.5074, lon := -0.1278, date := "2024-06-01", units := .standard,
    cloud_cover := { afternoon := 50 }, humidity := { afternoon := 70 },
    precipitation := { total := 1.2 },
    temperature :=
      { min := 285.55, max := 293.15, afternoon := 289.35, night := 285.55,
        evening := 289.35, morning := 287.45 },
    pressure := { afternoon := 1013 },
    wind := { max := { speed := 5.5, direction := 180 } },
    meta := none }

/-- The upstream provider used in the C2 evaluation: a client that
resolved the historical request in the requested (metric) units, as
`OpenMeteoClient.get_historical_weather` does. -/
def metricUpstream : ℚ → ℚ → String → UnitSystem → Except PyErr WeatherResponse :=
  fun _ _ _ _ => .ok metricReading

/-- The MongoDB record `store_weather` produces from `metricReading`: the
metric numbers are flattened into the document unchanged. -/
def storedMetricRecord : HistoricalWeatherRecord :=
  { city_key := "london,gb", date := "2024-06-02",
    temperature_min := 15.5, temperature_max := 23.5,
    temperature_afternoon := 19.5, temperature_night := 15.5,
    temperature_evening := 19.5, temperature_morning := 19.5,
    precipitation_total := 1.2, wind_speed := 19.8, wind_direction := 180,
    cloud_cover := 50, humidity := 70, pressure := 1013 }

/-- The failing upstream provider used in the C7 witness. -/
def failUpstream : ℚ → ℚ → String → UnitSystem → Except String WeatherResponse :=
  fun _ _ _ _ => .error "boom"

/-- The one-record store used in the C7 witness: day 0 already present. -/
def presentDb : MongoState := [(("london,gb", dateStr 0), sampleRecord)]

/-! Claim theorems. -/

theorem isGrid_round2 (x : ℚ) : IsGrid (round2 x) := ⟨round (100 * x), rfl⟩

theorem round2_of_isGrid {x : ℚ} (h : IsGrid x) : round2 x = x := by
  obtain ⟨k, rfl⟩ := h
  have h100 : (100 : ℚ) * ((k : ℚ) / 100) = (k : ℚ) := by ring
  rw [round2, h100, round_intCast]

theorem abs_round2_sub_le (x : ℚ) : |round2 x - x| ≤ 1 / 200 := by
  have h := abs_sub_round (100 * x)
  rw [abs_sub_comm] at h
  rw [round2]
  have : ((round (100 * x) : ℤ) : ℚ) / 100 - x = ((round (100 * x) : ℤ) - 100 * x) / 100 := by
    ring
  rw [this, abs_div]
  have h100 : |(100 : ℚ)| = 100 := by norm_num
  rw [h100]
  linarith

theorem isGrid_add {x y : ℚ} (hx : IsGrid x) (hy : IsGrid y) : IsGrid (x + y) := by
  obtain ⟨k, rfl⟩ := hx
  obtain ⟨m, rfl⟩ := hy
  exact ⟨k + m, by push_cast; ring⟩

theorem isGrid_sub {x y : ℚ} (hx : IsGrid x) (hy : IsGrid y) : IsGrid (x - y) := by
  obtain ⟨k, rfl⟩ := hx
  obtain ⟨m, rfl⟩ := hy
  exact ⟨k - m, by push_cast; ring⟩

theorem isGrid_num (k : ℤ) : IsGrid ((k : ℚ) / 100) := ⟨k, rfl⟩

/-- Two 2-decimal values closer than 0.02 are within 0.01 of each other:
their difference is a whole multiple of 0.01. -/
theorem isGrid_close {x y : ℚ} (hx : IsGrid x) (hy : IsGrid y)
    (h : |x - y| < 2 / 100) : |x - y| ≤ 1 / 100 := by
  obtain ⟨k, rfl⟩ := hx
  obtain ⟨m, rfl⟩ := hy
  have hdiff : (k : ℚ) / 100 - (m : ℚ) / 100 = ((k - m : ℤ) : ℚ) / 100 := by
    push_cast; ring
  rw [hdiff] at h ⊢
  rw [abs_div, abs_of_pos (by norm_num : (0:ℚ) < 100)] at h ⊢
  have hlt : |((k - m : ℤ) : ℚ)| < 2 := by linarith
  rw [← Int.cast_abs] at hlt ⊢
  have h2 : |k - m| < 2 := by exact_mod_cast hlt
  have h1 : |k - m| ≤ 1 := by omega
  have h1q : ((|k - m| : ℤ) : ℚ) ≤ 1 := by exact_mod_cast h1
  linarith


theorem round2_round2 (x : ℚ) : round2 (round2 x) = round2 x :=
  round2_of_isGrid (isGrid_round2 x)

/-- Claim C3, as stated, is false for the upstream client: its wind-speed
conversion to imperial multiplies by 0.621371 (km/h to mph), not by 2.237.
At speed 10 the client returns 6.21 while a 2.237-factor conversion would
return 22.37. -/
theorem c3_counterexample :
    openMeteoConvertWindSpeed 10 .imperial = 6.21 ∧
      round2 (10 * 2.237) = 22.37 ∧ (6.21 : ℚ) ≠ 22.37 := by
  refine ⟨?_, ?_, by norm_num⟩
  · simp [openMeteoConvertWindSpeed]
    norm_num [round2, round_eq]
  · norm_num [round2, round_eq]

/-- Claim C3, amended: the cache-boundary converter
(`WeatherCache._convert_wind_speed`) treats standard and metric as the
same unit (the conversion between them is the 2-decimal rounding, hence
the identity on already-rounded values) and multiplies or divides by
2.237 to or from imperial; the upstream client
(`OpenMeteoClient._convert_wind_speed`) instead converts the provider's
km/h value, multiplying by 0.621371 for imperial and returning the value
unchanged (up to rounding) for standard and metric. -/
theorem c3_wind_speed_conversion (v : ℚ) :
    convert_wind_speed v .standard .metric = round2 v ∧
      convert_wind_speed v .metric .standard = round2 v ∧
      convert_wind_speed (round2 v) .standard .metric = round2 v ∧
      convert_wind_speed (round2 v) .metric .standard = round2 v ∧
      convert_wind_speed v .standard .imperial = round2 (v * 2.237) ∧
      convert_wind_speed v .metric .imperial = round2 (v * 2.237) ∧
      convert_wind_speed v .imperial .standard = round2 (v / 2.237) ∧
      convert_wind_speed v .imperial .metric = round2 (v / 2.237) ∧
      openMeteoConvertWindSpeed v .imperial = round2 (v * 0.621371) ∧
      openMeteoConvertWindSpeed v .metric = round2 v ∧
      openMeteoConvertWindSpeed v .standard = round2 v := by
  refine ⟨?_, ?_, ?_, ?_, ?_, ?_, ?_, ?_, ?_, ?_, ?_⟩ <;>
    simp [convert_wind_speed, openMeteoConvertWindSpeed, round2_round2]

/-- Claim C4, as stated, is false: at the (not 2-decimal) temperature
32.0091 °F, converting imperial → canonical → metric → imperial returns
32.02, which differs from the original by 0.0109 > 0.01. -/
theorem c4_counterexample :
    ¬ (|convert_temperature
          (convert_temperature (convert_temperature 32.0091 .imperial .standard)
            .standard .metric) .metric .imperial - 32.0091| ≤ 1 / 100) := by
  have h1 : convert_temperature 32.0091 .imperial .standard = 273.16 := by
    norm_num [convert_temperature, round2, round_eq]
  have h2 : convert_temperature 273.16 .standard .metric = 0.01 := by
    norm_num [convert_temperature, round2, round_eq]
  have h3 : convert_temperature 0.01 .metric .imperial = 32.02 := by
    norm_num [convert_temperature, round2, round_eq]
  rw [h1, h2, h3]
  rw [show (32.02 : ℚ) - 32.0091 = 109 / 10000 by norm_num]
  rw [abs_of_pos (by norm_num : (0 : ℚ) < 109 / 10000)]
  norm_num

/-! Closed forms of the two converters, one per unit pair. -/

theorem ct_ss (x : ℚ) : convert_temperature x .standard .standard = round2 x := by
  simp [convert_temperature]

theorem ct_sm (x : ℚ) :
    convert_temperature x .standard .metric = round2 (x - 273.15) := by
  simp [convert_temperature]

theorem ct_si (x : ℚ) :
    convert_temperature x .standard .imperial = round2 ((x - 273.15) * 9 / 5 + 32) := by
  simp [convert_temperature]

theorem ct_ms (x : ℚ) :
    convert_temperature x .metric .standard = round2 (x + 273.15) := by
  simp [convert_temperature]

theorem ct_mm (x : ℚ) : convert_temperature x .metric .metric = round2 x := by
  simp [convert_temperature]

theorem ct_mi (x : ℚ) :
    convert_temperature x .metric .imperial = round2 (x * 9 / 5 + 32) := by
  simp [convert_temperature]

theorem ct_is (x : ℚ) :
    convert_temperature x .imperial .standard = round2 ((x - 32) * 5 / 9 + 273.15) := by
  simp [convert_temperature]

theorem ct_im (x : ℚ) :
    convert_temperature x .imperial .metric = round2 ((x - 32) * 5 / 9) := by
  simp [convert_temperature]

theorem ct_ii (x : ℚ) : convert_temperature x .imperial .imperial = round2 x := by
  simp [convert_temperature]

theorem cw_ss (x : ℚ) : convert_wind_speed x .standard .standard = round2 x := by
  simp [convert_wind_speed]

theorem cw_sm (x : ℚ) : convert_wind_speed x .standard .metric = round2 x := by
  simp [convert_wind_speed]

theorem cw_ms (x : ℚ) : convert_wind_speed x .metric .standard = round2 x := by
  simp [convert_wind_speed]

theorem cw_mm (x : ℚ) : convert_wind_speed x .metric .metric = round2 x := by
  simp [convert_wind_speed]

theorem cw_si (x : ℚ) :
    convert_wind_speed x .standard .imperial = round2 (x * 2.237) := by
  simp [convert_wind_speed]

theorem cw_mi (x : ℚ) :
    convert_wind_speed x .metric .imperial = round2 (x * 2.237) := by
  simp [convert_wind_speed]

theorem cw_is (x : ℚ) :
    convert_wind_speed x .imperial .standard = round2 (x / 2.237) := by
  simp [convert_wind_speed]

theorem cw_im (x : ℚ) :
    convert_wind_speed x .imperial .metric = round2 (x / 2.237) := by
  simp [convert_wind_speed]

theorem cw_ii (x : ℚ) : convert_wind_speed x .imperial .imperial = round2 x := by
  simp [convert_wind_speed]
  congr 1
  field_simp

/-- The 0.01-neighbourhood argument: if `x` lands strictly within 0.015 of
a 2-decimal value `v`, then `round2 x` is within 0.01 of `v`. -/
theorem close_of_perturb {v x : ℚ} (hv : IsGrid v) (h : |x - v| < 3 / 200) :
    |round2 x - v| ≤ 1 / 100 := by
  have hr := abs_round2_sub_le x
  have htri := abs_sub_le (round2 x) x v
  exact isGrid_close (isGrid_round2 x) hv (by linarith)

theorem round2_of_grid_sub (x : ℚ) (hx : IsGrid x) :
    round2 (x - 273.15) = x - 273.15 :=
  round2_of_isGrid (isGrid_sub hx ⟨27315, by norm_num⟩)

theorem round2_of_grid_add (x : ℚ) (hx : IsGrid x) :
    round2 (x + 273.15) = x + 273.15 :=
  round2_of_isGrid (isGrid_add hx ⟨27315, by norm_num⟩)

/-- Claim C4, amended: the round-trip tolerance of 0.01 holds for every
value that is itself a whole multiple of 0.01 — which every value produced
by the converters is, since all conversion outputs are rounded to 2
decimal places.  (For arbitrary reals the tolerance can reach 0.011, see
the counterexample.)  For every such `v` and every unit pair `(a, b)`,
converting `v` from `a` to canonical, then canonical to `b`, then back to
`a` lands within 0.01 of `v`, for both temperature and wind speed. -/
theorem c4_round_trip_on_rounded_values (v : ℚ) (k : ℤ) (hv : v = (k : ℚ) / 100)
    (a b : UnitSystem) :
    |convert_temperature
        (convert_temperature (convert_temperature v a .standard) .standard b)
        b a - v| ≤ 1 / 100 ∧
      |convert_wind_speed
          (convert_wind_speed (convert_wind_speed v a .standard) .standard b)
          b a - v| ≤ 1 / 100 := by
  have hgv : IsGrid v := ⟨k, hv⟩
  have hrv : round2 v = v := round2_of_isGrid hgv
  have e1 : v - 273.15 + 273.15 = v := by ring
  have e2 : v + 273.15 - 273.15 = v := by ring
  constructor
  · rcases a with _ | _ | _ <;> rcases b with _ | _ | _
    · simp only [ct_ss, round2_round2, hrv]
      norm_num
    · simp only [ct_ss, hrv, ct_sm, round2_of_grid_sub v hgv, ct_ms, e1]
      norm_num
    · simp only [ct_ss, hrv, ct_si, ct_is]
      apply close_of_perturb hgv
      have hd := abs_round2_sub_le ((v - 273.15) * 9 / 5 + 32)
      have harg :
          (round2 ((v - 273.15) * 9 / 5 + 32) - 32) * 5 / 9 + 273.15 - v =
            (round2 ((v - 273.15) * 9 / 5 + 32) - ((v - 273.15) * 9 / 5 + 32)) * (5 / 9) := by
        ring
      rw [harg, abs_mul, abs_of_pos (show (0:ℚ) < 5 / 9 by norm_num)]
      have h2 := mul_le_mul_of_nonneg_right hd (show (0:ℚ) ≤ 5 / 9 by norm_num)
      linarith
    · simp only [ct_ms, round2_of_grid_add v hgv, ct_ss, ct_sm, e2, hrv]
      norm_num
    · simp only [ct_ms, round2_of_grid_add v hgv, ct_sm, e2, hrv, ct_mm]
      norm_num
    · simp only [ct_ms, round2_of_grid_add v hgv, ct_si, e2, ct_im]
      apply close_of_perturb hgv
      have hd := abs_round2_sub_le (v * 9 / 5 + 32)
      have harg :
          (round2 (v * 9 / 5 + 32) - 32) * 5 / 9 - v =
            (round2 (v * 9 / 5 + 32) - (v * 9 / 5 + 32)) * (5 / 9) := by
        ring
      rw [harg, abs_mul, abs_of_pos (show (0:ℚ) < 5 / 9 by norm_num)]
      have h2 := mul_le_mul_of_nonneg_right hd (show (0:ℚ) ≤ 5 / 9 by norm_num)
      linarith
    · simp only [ct_is, ct_ss, round2_round2, ct_si]
      apply close_of_perturb hgv
      have hd := abs_round2_sub_le ((v - 32) * 5 / 9 + 273.15)
      have harg :
          (round2 ((v - 32) * 5 / 9 + 273.15) - 273.15) * 9 / 5 + 32 - v =
            (round2 ((v - 32) * 5 / 9 + 273.15) - ((v - 32) * 5 / 9 + 273.15)) * (9 / 5) := by
        ring
      rw [harg, abs_mul, abs_of_pos (show (0:ℚ) < 9 / 5 by norm_num)]
      have h2 := mul_le_mul_of_nonneg_right hd (show (0:ℚ) ≤ 9 / 5 by norm_num)
      linarith
    · simp only [ct_is, ct_sm, ct_mi]
      rw [round2_of_grid_sub _ (isGrid_round2 _)]
      apply close_of_perturb hgv
      have hd := abs_round2_sub_le ((v - 32) * 5 / 9 + 273.15)
      have harg :
          (round2 ((v - 32) * 5 / 9 + 273.15) - 273.15) * 9 / 5 + 32 - v =
            (round2 ((v - 32) * 5 / 9 + 273.15) - ((v - 32) * 5 / 9 + 273.15)) * (9 / 5) := by
        ring
      rw [harg, abs_mul, abs_of_pos (show (0:ℚ) < 9 / 5 by norm_num)]
      have h2 := mul_le_mul_of_nonneg_right hd (show (0:ℚ) ≤ 9 / 5 by norm_num)
      linarith
    · simp only [ct_is, ct_si, ct_ii, round2_round2]
      apply close_of_perturb hgv
      have hd := abs_round2_sub_le ((v - 32) * 5 / 9 + 273.15)
      have harg :
          (round2 ((v - 32) * 5 / 9 + 273.15) - 273.15) * 9 / 5 + 32 - v =
            (round2 ((v - 32) * 5 / 9 + 273.15) - ((v - 32) * 5 / 9 + 273.15)) * (9 / 5) := by
        ring
      rw [harg, abs_mul, abs_of_pos (show (0:ℚ) < 9 / 5 by norm_num)]
      have h2 := mul_le_mul_of_nonneg_right hd (show (0:ℚ) ≤ 9 / 5 by norm_num)
      linarith
  · rcases a with _ | _ | _ <;> rcases b with _ | _ | _
    · simp only [cw_ss, cw_sm, cw_ms, cw_mm, round2_round2, hrv]
      norm_num
    · simp only [cw_ss, cw_sm, cw_ms, cw_mm, round2_round2, hrv]
      norm_num
    · simp only [cw_ss, hrv, cw_si, cw_is]
      apply close_of_perturb hgv
      have hd := abs_round2_sub_le (v * 2.237)
      have harg :
          round2 (v * 2.237) / 2.237 - v =
            (round2 (v * 2.237) - v * 2.237) * (1 / 2.237) := by
        ring
      rw [harg, abs_mul, abs_of_pos (show (0:ℚ) < 1 / 2.237 by norm_num)]
      have h2 := mul_le_mul_of_nonneg_right hd (show (0:ℚ) ≤ 1 / 2.237 by norm_num)
      linarith
    · simp only [cw_ss, cw_sm, cw_ms, cw_mm, round2_round2, hrv]
      norm_num
    · simp only [cw_ss, cw_sm, cw_ms, cw_mm, round2_round2, hrv]
      norm_num
    · simp only [cw_ms, hrv, cw_si, cw_im]
      apply close_of_perturb hgv
      have hd := abs_round2_sub_le (v * 2.237)
      have harg :
          round2 (v * 2.237) / 2.237 - v =
            (round2 (v * 2.237) - v * 2.237) * (1 / 2.237) := by
        ring
      rw [harg, abs_mul, abs_of_pos (show (0:ℚ) < 1 / 2.237 by norm_num)]
      have h2 := mul_le_mul_of_nonneg_right hd (show (0:ℚ) ≤ 1 / 2.237 by norm_num)
      linarith
    · simp only [cw_is, cw_ss, round2_round2, cw_si]
      apply close_of_perturb hgv
      have hd := abs_round2_sub_le (v / 2.237)
      have harg :
          round2 (v / 2.237) * 2.237 - v =
            (round2 (v / 2.237) - v / 2.237) * 2.237 := by
        ring
      rw [harg, abs_mul, abs_of_pos (show (0:ℚ) < 2.237 by norm_num)]
      have h2 := mul_le_mul_of_nonneg_right hd (show (0:ℚ) ≤ 2.237 by norm_num)
      linarith
    · simp only [cw_is, cw_sm, round2_round2, cw_mi]
      apply close_of_perturb hgv
      have hd := abs_round2_sub_le (v / 2.237)
      have harg :
          round2 (v / 2.237) * 2.237 - v =
            (round2 (v / 2.237) - v / 2.237) * 2.237 := by
        ring
      rw [harg, abs_mul, abs_of_pos (show (0:ℚ) < 2.237 by norm_num)]
      have h2 := mul_le_mul_of_nonneg_right hd (show (0:ℚ) ≤ 2.237 by norm_num)
      linarith
    · simp only [cw_is, cw_si, cw_ii, round2_round2]
      apply close_of_perturb hgv
      have hd := abs_round2_sub_le (v / 2.237)
      have harg :
          round2 (v / 2.237) * 2.237 - v =
            (round2 (v / 2.237) - v / 2.237) * 2.237 := by
        ring
      rw [harg, abs_mul, abs_of_pos (show (0:ℚ) < 2.237 by norm_num)]
      have h2 := mul_le_mul_of_nonneg_right hd (show (0:ℚ) ≤ 2.237 by norm_num)
      linarith

/-- Witness for the amended C4 at the concrete 2-decimal value 5.25. -/
theorem c4_round_trip_witness :
    |convert_temperature
        (convert_temperature (convert_temperature 5.25 .imperial .standard)
          .standard .metric) .metric .imperial - 5.25| ≤ 1 / 100 ∧
      |convert_wind_speed
          (convert_wind_speed (convert_wind_speed 5.25 .imperial .standard)
            .standard .metric) .metric .imperial - 5.25| ≤ 1 / 100 :=
  c4_round_trip_on_rounded_values 5.25 525 (by norm_num) .imperial .metric

/-- Helper for C9: when no key of the state matches the city's scan
pattern, `clear_city_cache` returns the zero-count success and leaves the
state unchanged. -/
theorem clear_city_cache_on_clean (st : RedisState) (city : String)
    (hall : ∀ kv ∈ st, String.startsWith kv.1 ("weather:" ++ city ++ ":") = false) :
    WeatherCache.clear_city_cache st city =
      ({ status := "success",
         message := "No cache entries found for city: " ++ city,
         keys_removed := 0 }, st) := by
  have hkeys :
      List.filter (fun k => String.startsWith k ("weather:" ++ city ++ ":"))
        (List.map Prod.fst st) = [] := by
    rw [List.filter_eq_nil_iff]
    intro k hk
    obtain ⟨kv, hkv, rfl⟩ := List.mem_map.mp hk
    simp [hall kv hkv]
  simp [WeatherCache.clear_city_cache, hkeys]

/-- Claim C9: `clear_city_cache` always reports success, its removed-key
count is the number of entries under the city's key prefix, afterwards no
entry under that prefix remains, and a second consecutive call returns a
zero-count success rather than an error. -/
theorem c9_clear_city_cache_idempotent (st : RedisState) (city : String) :
    (WeatherCache.clear_city_cache st city).1.status = "success" ∧
      (WeatherCache.clear_city_cache st city).1.keys_removed =
        (List.filter (fun k => String.startsWith k ("weather:" ++ city ++ ":"))
          (List.map Prod.fst st)).length ∧
      (∀ kv ∈ (WeatherCache.clear_city_cache st city).2,
          String.startsWith kv.1 ("weather:" ++ city ++ ":") = false) ∧
      (WeatherCache.clear_city_cache
          (WeatherCache.clear_city_cache st city).2 city).1.status = "success" ∧
      (WeatherCache.clear_city_cache
          (WeatherCache.clear_city_cache st city).2 city).1.keys_removed = 0 := by
  have hclean : ∀ kv ∈ (WeatherCache.clear_city_cache st city).2,
      String.startsWith kv.1 ("weather:" ++ city ++ ":") = false := by
    by_cases h :
        (List.filter (fun k => String.startsWith k ("weather:" ++ city ++ ":"))
          (List.map Prod.fst st)).isEmpty
    · intro kv hkv
      rw [List.isEmpty_iff] at h
      have := List.filter_eq_nil_iff.mp h kv.1 (List.mem_map_of_mem Prod.fst ?mem)
      · simpa using this
      case mem =>
        simpa [WeatherCache.clear_city_cache, List.isEmpty_iff.mpr h] using hkv
    · intro kv hkv
      have hmem : kv ∈ List.filter
          (fun kv => ¬ String.startsWith kv.1 ("weather:" ++ city ++ ":")) st := by
        simpa [WeatherCache.clear_city_cache, h] using hkv
      have := (List.mem_filter.mp hmem).2
      simpa using this
  refine ⟨?_, ?_, hclean, ?_, ?_⟩
  · by_cases h :
        (List.filter (fun k => String.startsWith k ("weather:" ++ city ++ ":"))
          (List.map Prod.fst st)).isEmpty <;>
      simp [WeatherCache.clear_city_cache, h]
  · by_cases h :
        (List.filter (fun k => String.startsWith k ("weather:" ++ city ++ ":"))
          (List.map Prod.fst st)).isEmpty
    · rw [List.isEmpty_iff] at h
      simp [WeatherCache.clear_city_cache, List.isEmpty_iff.mpr h, h]
    · simp [WeatherCache.clear_city_cache, h]
  · rw [clear_city_cache_on_clean _ _ hclean]
  · rw [clear_city_cache_on_clean _ _ hclean]

/-- Claim C8: for a city outside the tracked set, HistoricalStore reads
return absent for every backing state (so the backing collection is never
consulted), writes leave the backing state unchanged, and a get following
a store still returns absent. -/
theorem c8_untracked_city_noop (city_key : String)
    (h : MongoWeatherStorage.is_tracked_city city_key = false) :
    (∀ db date units, MongoWeatherStorage.get_weather db city_key date units = none) ∧
      (∀ db w, MongoWeatherStorage.store_weather db w city_key = db) ∧
      (∀ db w date units,
        MongoWeatherStorage.get_weather
          (MongoWeatherStorage.store_weather db w city_key) city_key date units = none) := by
  refine ⟨?_, ?_, ?_⟩ <;>
    intros <;>
    simp [MongoWeatherStorage.get_weather, MongoWeatherStorage.store_weather, h]

/-- Witness for C8 at the concrete untracked city `"unknown,xx"`. -/
theorem c8_untracked_city_noop_witness :
    MongoWeatherStorage.is_tracked_city "unknown,xx" = false ∧
      MongoWeatherStorage.get_weather
        (MongoWeatherStorage.store_weather [] standardReading "unknown,xx")
        "unknown,xx" "2024-06-01" .standard = none :=
  ⟨by decide,
   (c8_untracked_city_noop "unknown,xx" (by decide)).2.2 [] standardReading
     "2024-06-01" .standard⟩

/-- Helper: deleting a key removes it from the modelled keyspace. -/
theorem redisRead_delete (st : RedisState) (key : String) :
    redisRead (redisDelete st key) key = none := by
  simp only [redisRead, redisDelete]
  induction st with
  | nil => rfl
  | cons kv rest ih =>
      by_cases h : kv.1 = key
      · simpa [List.filter_cons, h] using ih
      · simpa [List.filter_cons, h, List.lookup_cons, beq_eq_false_iff_ne,
          Ne.symm h] using ih

/-- Claim C5: a cache entry whose payload fails to decode — both invalid
JSON and a payload failing model validation for the requested data kind —
makes `WeatherCache.get` delete the entry and return absent (the model is
total: both exception classes are caught in the source), and a repeated
get on the resulting state is an ordinary miss returning the same absent
answer, so the corrupt entry is indistinguishable from a miss to the
caller. -/
theorem c5_corrupt_entry_self_healing (st : RedisState)
    (city date data_type : String) (units : UnitSystem) (now : String)
    (raw : RawEntry)
    (hmem : redisRead st (weather_key city date data_type) = some raw)
    (hbad : raw = RawEntry.invalidJson ∨
      ∃ p, raw = RawEntry.json p ∧ validatePayload p (data_type == "stats") = none) :
    WeatherCache.get st city date data_type units now =
        (none, redisDelete st (weather_key city date data_type)) ∧
      WeatherCache.get (redisDelete st (weather_key city date data_type))
          city date data_type units now =
        (none, redisDelete st (weather_key city date data_type)) := by
  constructor
  · rcases hbad with rfl | ⟨p, rfl, hval⟩
    · simp [WeatherCache.get, hmem]
    · simp only [WeatherCache.get, hmem, hval]
  · simp [WeatherCache.get, redisRead_delete]

/-- Witness for C5: a single invalid-JSON entry under a historical key. -/
theorem c5_corrupt_entry_self_healing_witness :
    redisRead [(weather_key "london,gb" "2024-06-01" "historical", RawEntry.invalidJson)]
        (weather_key "london,gb" "2024-06-01" "historical") =
        some RawEntry.invalidJson ∧
      WeatherCache.get
        [(weather_key "london,gb" "2024-06-01" "historical", RawEntry.invalidJson)]
        "london,gb" "2024-06-01" "historical" .metric "now" =
        (none,
          redisDelete
            [(weather_key "london,gb" "2024-06-01" "historical", RawEntry.invalidJson)]
            (weather_key "london,gb" "2024-06-01" "historical")) :=
  ⟨by decide,
   (c5_corrupt_entry_self_healing _ "london,gb" "2024-06-01" "historical" .metric "now"
     RawEntry.invalidJson (by decide) (Or.inl rfl)).1⟩

/-- Claim C1 is contradicted by the code: on a cache miss with a
HistoricalStore hit for a tracked city, the endpoint calls
`weather_cache.convert_units(mongo_data, units)`, but `WeatherCache`
defines no `convert_units` method (only the three-argument private
`_convert_units`), so every request with non-standard units raises
`AttributeError` instead of returning the converted reading; moreover
`MongoWeatherStorage.get_weather` itself never converts — whatever `units`
it is passed, any reading it returns is tagged `standard`. -/
theorem c1_store_hit_crashes_on_nonstandard_units :
    (∀ upstream now,
      get_historical_weather "london,gb" "2024-06-01" .metric 51.5074 (-0.1278)
          [] sampleDb upstream now =
        .error (.attributeError "convert_units")) ∧
      (∀ db city date units w,
        MongoWeatherStorage.get_weather db city date units = some w →
          w.units = .standard) := by
  constructor
  · intro upstream now
    have hcache :
        WeatherCache.get [] "london,gb" "2024-06-01" "historical" .metric now =
          (none, []) := by
      simp [WeatherCache.get, redisRead]
    have hmongo :
        (MongoWeatherStorage.get_weather sampleDb "london,gb" "2024-06-01"
          .metric).isSome = true := by
      simp [MongoWeatherStorage.get_weather, MongoWeatherStorage.is_tracked_city,
        MongoWeatherStorage.tracked_cities, sampleDb, CITIES, List.lookup]
    simp only [get_historical_weather, hcache]
    rw [if_pos (by decide : MongoWeatherStorage.is_tracked_city "london,gb" = true)]
    obtain ⟨w, hw⟩ := Option.isSome_iff_exists.mp hmongo
    rw [hw]
    simp
  · intro db city date units w h
    simp only [MongoWeatherStorage.get_weather] at h
    split at h
    · exact absurd h (by simp)
    · split at h
      · exact absurd h (by simp)
      · split at h
        · exact absurd h (by simp)
        · rw [← Option.some_inj.mp h]

/-- Witness for C1: the store returns the sample record tagged
`standard` even when imperial units are requested. -/
theorem c1_store_hit_crashes_witness :
    MongoWeatherStorage.get_weather sampleDb "london,gb" "2024-06-01" .imperial =
        some standardReading ∧
      standardReading.units = .standard := by
  have hEval :
      MongoWeatherStorage.get_weather sampleDb "london,gb" "2024-06-01" .imperial =
        some standardReading := by
    simp [MongoWeatherStorage.get_weather, MongoWeatherStorage.is_tracked_city,
      MongoWeatherStorage.tracked_cities, sampleDb, sampleRecord, CITIES,
      standardReading, List.lookup]
  exact ⟨hEval,
    c1_store_hit_crashes_on_nonstandard_units.2 sampleDb "london,gb" "2024-06-01"
      .imperial standardReading hEval⟩

/-- Helper for C2: `WeatherCache.set` on a reading always succeeds and the
stored payload is the reading converted to standard units with the
provenance metadata removed. -/
theorem set_reading_canonical (st : RedisState) (city date data_type : String)
    (w : WeatherResponse) :
    ∃ ws, WeatherCache.set st city date data_type (.reading w) =
        .ok ((weather_key city date data_type, RawEntry.json (.reading ws)) ::
          redisDelete st (weather_key city date data_type)) ∧
      ws.units = .standard ∧ ws.meta = none := by
  by_cases hu : w.units = .standard
  · exact ⟨{ w with meta := none },
      by simp [WeatherCache.set, unitsAttr, hu, WeatherCache.dumpWithoutMeta],
      hu, rfl⟩
  · refine ⟨{ w with
        temperature :=
          { min := convert_temperature w.temperature.min w.units .standard
            max := convert_temperature w.temperature.max w.units .standard
            afternoon := convert_temperature w.temperature.afternoon w.units .standard
            night := convert_temperature w.temperature.night w.units .standard
            evening := convert_temperature w.temperature.evening w.units .standard
            morning := convert_temperature w.temperature.morning w.units .standard }
        wind :=
          { max :=
              { speed := convert_wind_speed w.wind.max.speed w.units .standard
                direction := w.wind.max.direction } }
        units := .standard
        meta := none }, ?_, rfl, rfl⟩
    simp [WeatherCache.set, unitsAttr, hu, convert_units,
      WeatherCache.dumpWithoutMeta]

/-- Claim C2 is contradicted by the code on the HistoricalStore side:
`WeatherCache.set` does write canonical-unit, metadata-free payloads for
readings (and writes nothing at all for statistics values — the `units`
attribute access raises), but the orchestrator's upstream write-through
passes the reading to `store_weather` in the requested units, so a
`units=metric` historical request persists metric numbers that a later
`get_weather` serves tagged `standard`. -/
theorem c2_canonical_units_invariant :
    (∀ st city date data_type w, ∃ ws,
      WeatherCache.set st city date data_type (.reading w) =
          .ok ((weather_key city date data_type, RawEntry.json (.reading ws)) ::
            redisDelete st (weather_key city date data_type)) ∧
        ws.units = .standard ∧ ws.meta = none) ∧
      (∀ st city date data_type s,
        WeatherCache.set st city date data_type (.stats s) =
          .error "AttributeError: units") ∧
      (∀ now,
        Except.map (fun r => r.2.2)
            (get_historical_weather "london,gb" "2024-06-02" .metric 51.5074
              (-0.1278) [] [] metricUpstream now) =
          .ok [(("london,gb", "2024-06-02"), storedMetricRecord)]) ∧
      storedMetricRecord.temperature_min = 15.5 ∧
      convert_temperature 15.5 .metric .standard = 288.65 ∧
      (15.5 : ℚ) ≠ 288.65 ∧
      (MongoWeatherStorage.get_weather
            [(("london,gb", "2024-06-02"), storedMetricRecord)] "london,gb"
            "2024-06-02" .standard).map
          (fun w => (w.units, w.temperature.min)) =
        some (.standard, 15.5) := by
  refine ⟨set_reading_canonical, ?_, ?_, rfl, ?_, by norm_num, ?_⟩
  · intro st city date data_type s
    simp [WeatherCache.set, unitsAttr]
  · intro now
    have h1 : WeatherCache.get [] "london,gb" "2024-06-02" "historical" .metric now =
        (none, []) := by
      simp [WeatherCache.get, redisRead]
    have h2 : MongoWeatherStorage.get_weather [] "london,gb" "2024-06-02" .metric =
        none := by
      simp [MongoWeatherStorage.get_weather, List.lookup]
    simp only [get_historical_weather, h1]
    rw [if_pos (by decide : MongoWeatherStorage.is_tracked_city "london,gb" = true)]
    rw [h2]
    simp only [historical_upstream_path, metricUpstream]
    obtain ⟨ws, hset, _, _⟩ := set_reading_canonical [] "london,gb" "2024-06-02"
      ("historical") { metricReading with meta := some upstreamHistoricalMeta }
    rw [hset]
    have hstore : MongoWeatherStorage.store_weather []
        { metricReading with meta := some upstreamHistoricalMeta } "london,gb" =
        [(("london,gb", "2024-06-02"), storedMetricRecord)] := by
      simp [MongoWeatherStorage.store_weather, MongoWeatherStorage.is_tracked_city,
        MongoWeatherStorage.tracked_cities, metricReading, storedMetricRecord]
    rw [if_pos (by decide : MongoWeatherStorage.is_tracked_city "london,gb" = true),
      hstore]
    rfl
  · norm_num [convert_temperature, round2, round_eq]
  · simp [MongoWeatherStorage.get_weather, MongoWeatherStorage.is_tracked_city,
      MongoWeatherStorage.tracked_cities, List.lookup, storedMetricRecord, CITIES]

/-- Claim C6 is contradicted by the code: the forecast window's lower
bound is `datetime.now() + timedelta(days=1)`, which carries the request's
time of day, while the requested date parses to midnight — so a request
for tomorrow made at any time strictly after midnight fails validation
(rejected with `INVALID_DATE` before the cache or the upstream provider is
touched), although the claim (and the endpoint's own error message) says
tomorrow is always accepted.  The rejection does happen before any tier:
the cache state is returned unchanged and the upstream flag is false. -/
theorem c6_forecast_rejects_tomorrow (today : ℤ) (tod : ℚ) (h1 : 0 < tod)
    (h2 : tod < 1) (city_key : String) (units : UnitSystem) (lat lon : ℚ)
    (cache : RedisState)
    (upstream : ℚ → ℚ → String → UnitSystem → Except PyErr WeatherResponse)
    (now : String) :
    forecast_date_valid today tod (today + 1) = false ∧
      get_forecast today tod (today + 1) city_key units lat lon cache upstream now =
        (.error (.http 400 "INVALID_DATE"), cache, false) := by
  have hval : forecast_date_valid today tod (today + 1) = false := by
    rw [forecast_date_valid, decide_eq_false_iff_not]
    rintro ⟨ha, -⟩
    push_cast at ha
    linarith
  exact ⟨hval, by simp [get_forecast, hval]⟩

/-- Witness for C6: a request at noon for tomorrow is rejected. -/
theorem c6_forecast_rejects_tomorrow_witness :
    (0 : ℚ) < 1 / 2 ∧ (1 / 2 : ℚ) < 1 ∧
      get_forecast 0 (1 / 2) (0 + 1) "london,gb" .metric 51.5074 (-0.1278) []
          metricUpstream "now" =
        (.error (.http 400 "INVALID_DATE"), [], false) :=
  ⟨by norm_num, by norm_num,
    (c6_forecast_rejects_tomorrow 0 (1 / 2) (by norm_num) (by norm_num)
      "london,gb" .metric 51.5074 (-0.1278) [] metricUpstream "now").2⟩

/-- Claim C10: `WeatherCache.set` deep-copies its argument before the
canonical-unit conversion, so on the object heap the caller's reference is
never written: the object at `ref` after the call is the object that was
there before, and the outcome (stored payload or raised `AttributeError`)
is exactly that of the value-level `WeatherCache.set` on the caller's
value. -/
theorem c10_set_leaves_caller_value_unchanged (heap : List WeatherData)
    (ref : ℕ) (st : RedisState) (city date data_type : String)
    (h : ref < heap.length) :
    (WeatherCache.set_on_heap heap ref st city date data_type).1[ref]? =
        heap[ref]? ∧
      ∀ data, heap[ref]? = some data →
        (WeatherCache.set_on_heap heap ref st city date data_type).2 =
          WeatherCache.set st city date data_type data := by
  have hdata : heap[ref]? = some heap[ref] := List.getElem?_eq_getElem h
  have hne : heap.length ≠ ref := (Nat.ne_of_lt h).symm
  constructor
  · simp only [WeatherCache.set_on_heap, hdata]
    rcases hu : unitsAttr heap[ref] with _ | u
    · simp only [hu]
      rw [List.getElem?_append, if_pos h]
      exact hdata
    · simp only [hu]
      by_cases hstd : u = .standard
      · rw [if_neg (by simp [hstd])]
        rw [List.getElem?_append, if_pos h]
        exact hdata
      · rw [if_pos hstd]
        rw [List.getElem?_set_ne hne, List.getElem?_append, if_pos h]
        exact hdata
  · intro data0 hd0
    have hdd : data0 = heap[ref] := by
      rw [hdata] at hd0
      exact (Option.some_inj.mp hd0).symm
    subst hdd
    simp only [WeatherCache.set_on_heap, hdata, WeatherCache.set]
    rcases hu : unitsAttr heap[ref] with _ | u
    · simp only [hu]
    · simp only [hu]
      by_cases hstd : u = .standard
      · rw [if_neg (by simp [hstd]), if_neg (by simp [hstd])]
        rw [List.getD_eq_getElem?_getD, List.getElem?_concat_length]
        rfl
      · rw [if_pos hstd, if_pos hstd]
        rw [List.getD_eq_getElem?_getD,
          List.getElem?_set_eq_of_lt _
            (by simp : heap.length < (heap ++ [heap[ref]]).length)]
        rfl

/-- Witness for C10: a one-object heap holding a metric reading. -/
theorem c10_set_leaves_caller_witness :
    (0 : ℕ) < [WeatherData.reading metricReading].length ∧
      (WeatherCache.set_on_heap [WeatherData.reading metricReading] 0 []
            "london,gb" "2024-06-02" "historical").1[0]? =
        [WeatherData.reading metricReading][0]? :=
  ⟨by norm_num,
    (c10_set_leaves_caller_value_unchanged [WeatherData.reading metricReading] 0 []
      "london,gb" "2024-06-02" "historical" (by norm_num)).1⟩

/-- Helper: looking a key up after filtering a different key out of the
collection is unchanged. -/
theorem mongo_lookup_filter_ne (db : MongoState) (k k0 : String × String)
    (h : k ≠ k0) :
    List.lookup k (List.filter (fun kv => kv.1 ≠ k0) db) = List.lookup k db := by
  induction db with
  | nil => rfl
  | cons kv rest ih =>
      obtain ⟨k1, v1⟩ := kv
      by_cases hk : k1 = k0
      · subst hk
        have hkk : (k == k1) = false := beq_eq_false_iff_ne.mpr h
        simp only [List.filter_cons]
        rw [if_neg (by simp)]
        rw [ih]
        simp [List.lookup, hkk]
      · simp only [List.filter_cons]
        rw [if_pos (by simpa using hk)]
        simp only [List.lookup]
        rw [ih]

/-- Helper: `store_weather` only upserts, so a present record stays
present. -/
theorem store_weather_preserves_lookup (db : MongoState) (w : WeatherResponse)
    (ck : String) (k : String × String)
    (h : (List.lookup k db).isSome = true) :
    (List.lookup k (MongoWeatherStorage.store_weather db w ck)).isSome = true := by
  unfold MongoWeatherStorage.store_weather
  by_cases ht : MongoWeatherStorage.is_tracked_city ck = true
  · rw [if_neg (by simp [ht])]
    by_cases hk : k = (ck, w.date)
    · simp [List.lookup, hk]
    · simp only [List.lookup, beq_eq_false_iff_ne.mpr hk]
      rw [mongo_lookup_filter_ne db k (ck, w.date) hk]
      exact h
  · rw [if_pos (by simpa using ht)]
    exact h

/-- Helper: every tracked city has a gazetteer entry. -/
theorem tracked_city_in_CITIES (ck : String)
    (htr : MongoWeatherStorage.is_tracked_city ck = true) :
    ∃ p, List.lookup ck CITIES = some p := by
  have hmem : ck ∈ MongoWeatherStorage.tracked_cities := by
    simpa [MongoWeatherStorage.is_tracked_city] using htr
  simp only [MongoWeatherStorage.tracked_cities, List.mem_cons,
    List.not_mem_nil, or_false] at hmem
  rcases hmem with rfl | rfl | rfl
  · exact ⟨_, rfl⟩
  · exact ⟨_, rfl⟩
  · exact ⟨_, rfl⟩

/-- Helper: for a tracked city, `get_weather` answers present exactly when
the collection holds the `(city, date)` record. -/
theorem get_weather_isSome_iff (db : MongoState) (ck d : String)
    (u : UnitSystem) (htr : MongoWeatherStorage.is_tracked_city ck = true) :
    (MongoWeatherStorage.get_weather db ck d u).isSome =
      (List.lookup (ck, d) db).isSome := by
  obtain ⟨p, hp⟩ := tracked_city_in_CITIES ck htr
  unfold MongoWeatherStorage.get_weather
  rw [if_neg (by simp [htr])]
  cases hlk : List.lookup (ck, d) db
  · simp
  · simp [hp]

/-- Helper: the loop only calls upstream on dates of its input range. -/
theorem populate_loop_calls_subset (ck : String) (lat lon : ℚ)
    (upstream : ℚ → ℚ → String → UnitSystem → Except String WeatherResponse) :
    ∀ (dates : List String) (db : MongoState),
      ∀ x ∈ (PopulationService.populate_loop ck lat lon upstream dates db).2.2.2,
        x ∈ dates := by
  intro dates
  induction dates with
  | nil =>
      intro db x hx
      simp [PopulationService.populate_loop] at hx
  | cons d rest ih =>
      intro db x hx
      by_cases hex :
          (MongoWeatherStorage.get_weather db ck d .standard).isSome = true
      · simp only [PopulationService.populate_loop, hex, if_true] at hx
        exact List.mem_cons_of_mem d (ih db x hx)
      · simp only [PopulationService.populate_loop, hex] at hx
        rw [if_neg (by simpa using hex)] at hx
        cases hup : upstream lat lon d .standard with
        | ok w =>
            rw [hup] at hx
            rcases List.mem_cons.mp hx with rfl | hx'
            · exact List.mem_cons_self x rest
            · exact List.mem_cons_of_mem d (ih _ x hx')
        | error e =>
            rw [hup] at hx
            rcases List.mem_cons.mp hx with rfl | hx'
            · exact List.mem_cons_self x rest
            · exact List.mem_cons_of_mem d (ih _ x hx')

/-- Helper: the loop's two guarantees — a date present at run start is
reported skipped and never sent upstream, and the processed/failed
outcome dates are exactly the input dates. -/
theorem populate_loop_spec (ck : String) (lat lon : ℚ)
    (upstream : ℚ → ℚ → String → UnitSystem → Except String WeatherResponse)
    (htr : MongoWeatherStorage.is_tracked_city ck = true) :
    ∀ (dates : List String) (db : MongoState),
      (∀ d ∈ dates, (List.lookup (ck, d) db).isSome = true →
        ({ date := d, status := "skipped", reason := some "data_exists" } :
            ProcessedDate) ∈
            (PopulationService.populate_loop ck lat lon upstream dates db).1 ∧
          d ∉ (PopulationService.populate_loop ck lat lon upstream dates db).2.2.2) ∧
      (List.map ProcessedDate.date
          (PopulationService.populate_loop ck lat lon upstream dates db).1 ++
        List.map FailedDate.date
          (PopulationService.populate_loop ck lat lon upstream dates db).2.1).Perm
        dates := by
  intro dates
  induction dates with
  | nil =>
      intro db
      constructor
      · intro d hd
        simp at hd
      · simp [PopulationService.populate_loop]
  | cons d rest ih =>
      intro db
      by_cases hex :
          (MongoWeatherStorage.get_weather db ck d .standard).isSome = true
      · constructor
        · intro d' hd' hpres
          simp only [PopulationService.populate_loop, hex, if_true]
          rcases List.mem_cons.mp hd' with rfl | hd'r
          · refine ⟨List.mem_cons_self _ _, ?_⟩
            intro hcall
            have hd'' := populate_loop_calls_subset ck lat lon upstream rest db d' hcall
            exact absurd ((ih db).1 d' hd'' hpres).2 (fun hn => hn hcall)
          · exact ⟨List.mem_cons_of_mem _ ((ih db).1 d' hd'r hpres).1,
              ((ih db).1 d' hd'r hpres).2⟩
        · simp only [PopulationService.populate_loop, hex, if_true,
            List.map_cons, List.cons_append]
          exact List.Perm.cons d (ih db).2
      · have hnp : ¬ (List.lookup (ck, d) db).isSome = true := by
          rw [← get_weather_isSome_iff db ck d .standard htr]
          exact hex
        cases hup : upstream lat lon d .standard with
        | ok w =>
            have hstep :
                PopulationService.populate_loop ck lat lon upstream (d :: rest) db =
                  ({ date := d, status := "success", reason := none } ::
                    (PopulationService.populate_loop ck lat lon upstream rest
                      (MongoWeatherStorage.store_weather db w ck)).1,
                   (PopulationService.populate_loop ck lat lon upstream rest
                      (MongoWeatherStorage.store_weather db w ck)).2.1,
                   (PopulationService.populate_loop ck lat lon upstream rest
                      (MongoWeatherStorage.store_weather db w ck)).2.2.1,
                   d :: (PopulationService.populate_loop ck lat lon upstream rest
                      (MongoWeatherStorage.store_weather db w ck)).2.2.2) := by
              simp only [PopulationService.populate_loop, hup]
              rw [if_neg (by simpa using hex)]
            constructor
            · intro d' hd' hpres
              rw [hstep]
              by_cases hdd : d' = d
              · subst hdd
                exact absurd hpres hnp
              · have hd'r : d' ∈ rest := by
                  rcases List.mem_cons.mp hd' with h' | h'
                  · exact absurd h' hdd
                  · exact h'
                have hpres1 := store_weather_preserves_lookup db w ck (ck, d') hpres
                refine ⟨List.mem_cons_of_mem _
                  ((ih _).1 d' hd'r hpres1).1, ?_⟩
                intro hcall
                rcases List.mem_cons.mp hcall with h' | h'
                · exact hdd h'
                · exact ((ih _).1 d' hd'r hpres1).2 h'
            · rw [hstep]
              simp only [List.map_cons, List.cons_append]
              exact List.Perm.cons d (ih _).2
        | error e =>
            have hstep :
                PopulationService.populate_loop ck lat lon upstream (d :: rest) db =
                  ((PopulationService.populate_loop ck lat lon upstream rest db).1,
                   { date := d, error := e } ::
                     (PopulationService.populate_loop ck lat lon upstream rest db).2.1,
                   (PopulationService.populate_loop ck lat lon upstream rest db).2.2.1,
                   d :: (PopulationService.populate_loop ck lat lon upstream rest
                      db).2.2.2) := by
              simp only [PopulationService.populate_loop, hup]
              rw [if_neg (by simpa using hex)]
            constructor
            · intro d' hd' hpres
              rw [hstep]
              by_cases hdd : d' = d
              · subst hdd
                exact absurd hpres hnp
              · have hd'r : d' ∈ rest := by
                  rcases List.mem_cons.mp hd' with h' | h'
                  · exact absurd h' hdd
                  · exact h'
                refine ⟨((ih db).1 d' hd'r hpres).1, ?_⟩
                intro hcall
                rcases List.mem_cons.mp hcall with h' | h'
                · exact hdd h'
                · exact ((ih db).1 d' hd'r hpres).2 h'
            · rw [hstep]
              simp only [List.map_cons]
              exact List.Perm.trans List.perm_middle (List.Perm.cons d (ih db).2)

/-- Claim C7: for a tracked, known city the backfill run returns the
manifest of the per-date loop over `[today - days_back, today]`, and that
loop (i) reports every date already present in HistoricalStore as skipped
with reason `data_exists` and never calls upstream for it, (ii) on an
upstream exception records the date as failed and continues with the
remaining dates unchanged, and (iii) accounts for every date of the range
in exactly one of the processed/failed outcome lists. -/
theorem c7_backfill_manifest (ck : String) (days_back : ℕ) (today : ℤ)
    (db : MongoState)
    (upstream : ℚ → ℚ → String → UnitSystem → Except String WeatherResponse)
    (lat lon : ℚ)
    (hcity : List.lookup ck CITIES = some (lat, lon))
    (htr : MongoWeatherStorage.is_tracked_city ck = true) :
    PopulationService.populate_historical_data ck days_back today db upstream =
        .ok ({ city := ck, start_date := dateStr (today - days_back),
               end_date := dateStr today, days_requested := days_back,
               days_processed :=
                 (PopulationService.populate_loop ck lat lon upstream
                   (PopulationService.backfill_dates today days_back) db).1.length,
               days_failed :=
                 (PopulationService.populate_loop ck lat lon upstream
                   (PopulationService.backfill_dates today days_back) db).2.1.length,
               processed_dates :=
                 (PopulationService.populate_loop ck lat lon upstream
                   (PopulationService.backfill_dates today days_back) db).1,
               failed_dates :=
                 (PopulationService.populate_loop ck lat lon upstream
                   (PopulationService.backfill_dates today days_back) db).2.1 },
             (PopulationService.populate_loop ck lat lon upstream
               (PopulationService.backfill_dates today days_back) db).2.2.1,
             (PopulationService.populate_loop ck lat lon upstream
               (PopulationService.backfill_dates today days_back) db).2.2.2) ∧
      (∀ d ∈ PopulationService.backfill_dates today days_back,
        (List.lookup (ck, d) db).isSome = true →
          ({ date := d, status := "skipped", reason := some "data_exists" } :
              ProcessedDate) ∈
              (PopulationService.populate_loop ck lat lon upstream
                (PopulationService.backfill_dates today days_back) db).1 ∧
            d ∉ (PopulationService.populate_loop ck lat lon upstream
                (PopulationService.backfill_dates today days_back) db).2.2.2) ∧
      (∀ (d : String) (rest : List String) (db1 : MongoState) (e : String),
        MongoWeatherStorage.get_weather db1 ck d .standard = none →
          upstream lat lon d .standard = .error e →
          PopulationService.populate_loop ck lat lon upstream (d :: rest) db1 =
            ((PopulationService.populate_loop ck lat lon upstream rest db1).1,
             { date := d, error := e } ::
               (PopulationService.populate_loop ck lat lon upstream rest db1).2.1,
             (PopulationService.populate_loop ck lat lon upstream rest db1).2.2.1,
             d :: (PopulationService.populate_loop ck lat lon upstream rest
                db1).2.2.2)) ∧
      (List.map ProcessedDate.date
          (PopulationService.populate_loop ck lat lon upstream
            (PopulationService.backfill_dates today days_back) db).1 ++
        List.map FailedDate.date
          (PopulationService.populate_loop ck lat lon upstream
            (PopulationService.backfill_dates today days_back) db).2.1).Perm
        (PopulationService.backfill_dates today days_back) := by
  refine ⟨?_, (populate_loop_spec ck lat lon upstream htr _ db).1, ?_,
    (populate_loop_spec ck lat lon upstream htr _ db).2⟩
  · simp [PopulationService.populate_historical_data, hcity, htr]
  · intro d rest db1 e hnone herr
    have hex : ¬ (MongoWeatherStorage.get_weather db1 ck d .standard).isSome = true := by
      simp [hnone]
    simp only [PopulationService.populate_loop, herr]
    rw [if_neg hex]

/-- Witness for C7: a 2-day backfill for London over a store already
holding day 0 reports day 0 as skipped and does not call upstream for
it. -/
theorem c7_backfill_manifest_witness :
    List.lookup "london,gb" CITIES = some (51.5074, -0.1278) ∧
      MongoWeatherStorage.is_tracked_city "london,gb" = true ∧
      dateStr 0 ∈ PopulationService.backfill_dates 0 1 ∧
      (List.lookup ("london,gb", dateStr 0) presentDb).isSome = true ∧
      (({ date := dateStr 0, status := "skipped", reason := some "data_exists" } :
          ProcessedDate) ∈
          (PopulationService.populate_loop "london,gb" 51.5074 (-0.1278) failUpstream
            (PopulationService.backfill_dates 0 1) presentDb).1 ∧
        dateStr 0 ∉ (PopulationService.populate_loop "london,gb" 51.5074 (-0.1278)
            failUpstream (PopulationService.backfill_dates 0 1) presentDb).2.2.2) := by
  have hcity : List.lookup "london,gb" CITIES = some (51.5074, -0.1278) := rfl
  have htr : MongoWeatherStorage.is_tracked_city "london,gb" = true := by decide
  have hmem : dateStr 0 ∈ PopulationService.backfill_dates 0 1 := by decide
  have hpres : (List.lookup ("london,gb", dateStr 0) presentDb).isSome = true := by
    decide
  exact ⟨hcity, htr, hmem, hpres,
    (c7_backfill_manifest "london,gb" 1 0 presentDb failUpstream 51.5074 (-0.1278)
      hcity htr).2.1 (dateStr 0) hmem hpres⟩

end WeatherApi
